import Mathlib

/-!
Shallow embedding of the tauri-plugin-iap bridge layer (src/error.rs,
src/macos.rs, src/desktop.rs) and proofs about its specified behaviour.
-/

namespace Iap

/-! Error data model, from src/error.rs. -/

/-- Replica of `ErrorResponse` (src/error.rs lines 6-16), with the
generic `data` field specialised to `()` as in all uses in the repository. -/
structure ErrorResponse where
  code : Option String
  message : Option String
  deriving DecidableEq

/-- Replica of `PluginInvokeError` (src/error.rs lines 34-47).
The wrapped `serde_json::Error` is modelled by its message string. -/
inductive PluginInvokeError where
  | InvokeRejected (response : ErrorResponse)
  | CannotDeserializeResponse (err : String)
  | CannotSerializePayload (err : String)
  deriving DecidableEq

/-- Replica of `Error` (src/error.rs lines 49-62) restricted to the variants
compiled on desktop/macOS: `Io` (modelled by the io error message) and
`PluginInvoke`. -/
inductive Error where
  | Io (msg : String)
  | PluginInvoke (e : PluginInvokeError)
  deriving DecidableEq

/-- Display rendering of `ErrorResponse` (src/error.rs lines 19-32):
writes `[code]`, then `\x20-\x20` when a message follows, then the message. -/
def ErrorResponse.display (r : ErrorResponse) : String :=
  (match r.code with
    | some code => "[" ++ code ++ "]" ++ (if r.message.isSome then " - " else "")
    | none => "")
  ++ (match r.message with
    | some message => message
    | none => "")

/-- Display rendering of `PluginInvokeError` from its thiserror attributes
(src/error.rs lines 36-47): `InvokeRejected` is transparent, the other two
prepend a fixed prefix string. -/
def PluginInvokeError.display : PluginInvokeError → String
  | .InvokeRejected r => r.display
  | .CannotDeserializeResponse e => "failed to deserialize response: " ++ e
  | .CannotSerializePayload e => "failed to serialize payload: " ++ e

/-- Display rendering of `Error` (src/error.rs lines 49-62): both desktop
variants are `#[error(transparent)]`. -/
def Error.display : Error → String
  | .Io msg => msg
  | .PluginInvoke e => e.display

/-- Minimal JSON value type, to state what shape `Error`'s `Serialize`
impl produces at the host boundary. -/
inductive JsonValue where
  | str (s : String)
  | obj (fields : List (String × JsonValue))

/-- The `Serialize` impl for `Error` (src/error.rs lines 64-71):
`serializer.serialize_str(self.to_string())`, i.e. a single JSON string
holding the display rendering. -/
def Error.serializeJson (e : Error) : JsonValue :=
  .str e.display

/-! Result marshaling, from src/macos.rs. -/

/-- Replica of `ffi::FFIResult` (src/macos.rs lines 73-75): an error
message string coming from Swift. -/
inductive FFIResult where
  | Err (msg : String)
  deriving DecidableEq

/-- Raw native outcome: the `Result<String, ffi::FFIResult>` a native call
returns (success JSON payload or failure message). -/
abbrev NativeOutcome := Except FFIResult String

/-- Replica of `ParseFfiResponse::parse` (src/macos.rs lines 116-131).
The serde deserializer for the target type `T` is passed explicitly as
`dec`; `serde_json` errors are modelled by their message strings. -/
def parseFfi {T : Type} (dec : String → Except String T) : NativeOutcome → Except Error T
  | .ok json =>
    match dec json with
    | .ok v => .ok v
    | .error e => .error (.PluginInvoke (.CannotDeserializeResponse e))
  | .error (.Err msg) =>
    .error (.PluginInvoke (.InvokeRejected ⟨none, some msg⟩))

/-- Decimal evaluation of a digit list, `none` on empty input or a
non-digit character. -/
def natFromDigits : List Char → Option Nat
  | [] => none
  | cs =>
    cs.foldlM
      (fun acc c => if c.isDigit then some (acc * 10 + (c.toNat - 48)) else none) 0

/-- Sample concrete deserializer (decimal natural number), used to
instantiate the generic marshaling theorems at concrete inputs. -/
def decNat (s : String) : Except String Nat :=
  match natFromDigits s.toList with
  | some n => .ok n
  | none => .error ("invalid number: " ++ s)

/-! Listener registry and event relay, from src/macos.rs. -/

/-- Model of `tauri::ipc::Channel<String>`: the `u32` id reported by
`Channel::id`, plus whether `send` succeeds on this channel (used to model
per-subscriber delivery failures, which `trigger` discards). -/
structure Channel where
  id : Nat
  sendOk : Bool
  deriving DecidableEq

/-- Inner `HashMap<u32, Channel<String>>` of the `LISTENERS` table,
modelled as an association list keyed by channel id (HashMap keys are
unique; updates touch the first matching entry). -/
abbrev ChannelMap := List (Nat × Channel)

/-- The `LISTENERS` table `HashMap<String, HashMap<u32, Channel<String>>>`
(src/macos.rs lines 8-9), modelled as an association list keyed by event
name. -/
abbrev Registry := List (String × ChannelMap)

/-- HashMap insert-or-replace on the inner map (`channels.insert(id, c)`). -/
def ChannelMap.insertEntry : ChannelMap → Nat → Channel → ChannelMap
  | [], i, c => [(i, c)]
  | p :: t, i, c =>
    if p.1 == i then (p.1, c) :: t else p :: ChannelMap.insertEntry t i c

/-- HashMap remove on the inner map (`channels.remove(&channel_id)`). -/
def ChannelMap.removeEntry : ChannelMap → Nat → ChannelMap
  | [], _ => []
  | p :: t, i => if p.1 == i then t else p :: ChannelMap.removeEntry t i

/-- HashMap lookup on the inner map, used to observe which handle an id
holds. -/
def ChannelMap.lookupId : ChannelMap → Nat → Option Channel
  | [], _ => none
  | p :: t, i => if p.1 == i then some p.2 else ChannelMap.lookupId t i

/-- Well-formedness of the inner map: HashMap keys are unique. -/
abbrev ChannelMap.WF (m : ChannelMap) : Prop :=
  (m.map Prod.fst).Nodup

/-- HashMap lookup on the outer table (`guard.get(&event)`). -/
def Registry.getEvent : Registry → String → Option ChannelMap
  | [], _ => none
  | p :: t, e => if p.1 == e then some p.2 else Registry.getEvent t e

/-- The entry update performed by `register_listener` (src/macos.rs lines
253-256): `guard.entry(event).or_default().insert(handler.id(), handler)`. -/
def Registry.register : Registry → String → Channel → Registry
  | [], e, c => [(e, ChannelMap.insertEntry [] c.id c)]
  | p :: t, e, c =>
    if p.1 == e then (p.1, ChannelMap.insertEntry p.2 c.id c) :: t
    else p :: Registry.register t e c

/-- The entry update performed by `remove_listener` (src/macos.rs lines
279-281): `if let Some(channels) = guard.get_mut(&event) then
channels.remove(&channel_id)`. -/
def Registry.removePair : Registry → String → Nat → Registry
  | [], _, _ => []
  | p :: t, e, i =>
    if p.1 == e then (p.1, ChannelMap.removeEntry p.2 i) :: t
    else p :: Registry.removePair t e i

/-- Subscribers currently registered for an event (empty when the event
has no entry in the table). -/
def Registry.subscribers (r : Registry) (e : String) : ChannelMap :=
  (Registry.getEvent r e).getD []

/-- Total number of subscriber entries across all events. -/
def Registry.size (r : Registry) : Nat :=
  (r.map (fun p => p.2.length)).sum

/-- Well-formedness of the table: event keys are unique and each inner map
is well-formed. -/
abbrev Registry.WF (r : Registry) : Prop :=
  (r.map Prod.fst).Nodup ∧ ∀ p ∈ r, ChannelMap.WF p.2

/-- Replica of `trigger` (src/macos.rs lines 134-149). State `none` models
`LISTENERS.get()` returning `None` (the `OnceLock` not yet initialised).
The result carries the delivery attempts: `channel.send(payload.clone())`
is called on every channel registered for the event and its result is
discarded (`let _ = ...`), so the attempt list does not depend on any
channel's `sendOk`. The poisoned-read-lock branch is a propagated panic
condition and is not modelled. -/
def trigger (st : Option Registry) (event payload : String) :
    Except FFIResult (List (Channel × String)) :=
  match st with
  | none => .error (.Err "Listeners not initialized")
  | some reg =>
    match Registry.getEvent reg event with
    | none => .ok []
    | some channels => .ok (channels.map (fun p => (p.2, payload)))

/-- Replica of `Iap::register_listener` (src/macos.rs lines 238-258):
`LISTENERS.get_or_init` establishes an empty table when absent, then the
entry for the event is inserted or replaced. The poisoned-write-lock
branch is not modelled. -/
def registerListener (st : Option Registry) (event : String) (handler : Channel) :
    Except Error (Option Registry) :=
  .ok (some (Registry.register (st.getD []) event handler))

/-- Replica of `Iap::remove_listener` (src/macos.rs lines 260-283):
errors when `LISTENERS` is unset, otherwise removes the pair if present.
The poisoned-write-lock branch is not modelled. -/
def removeListener (st : Option Registry) (event : String) (channelId : Nat) :
    Except Error (Option Registry) :=
  match st with
  | none =>
    .error (.PluginInvoke (.InvokeRejected ⟨none, some "Listeners not initialized"⟩))
  | some reg => .ok (some (Registry.removePair reg event channelId))

/-! Bridge lifecycle, for the Uninitialized/Active state machine. -/

/-- Operations that touch the `LISTENERS` cell: plugin setup `init`
(src/macos.rs lines 151-161), listener registration and removal, and a
native callback firing `trigger`. -/
inductive Op where
  | pluginInit
  | register (event : String) (c : Channel)
  | remove (event : String) (channelId : Nat)
  | fire (event payload : String)

/-- Effect of each operation on the `LISTENERS` state: `get_or_init`
establishes an empty table exactly when the cell is unset; registration
also establishes it via `get_or_init`; removal and `trigger` use `get`
and leave an unset cell unset; `trigger` never mutates the table. -/
def step (st : Option Registry) : Op → Option Registry
  | .pluginInit => some (st.getD [])
  | .register e c => some (Registry.register (st.getD []) e c)
  | .remove e i =>
    match st with
    | none => none
    | some reg => some (Registry.removePair reg e i)
  | .fire _ _ => st

/-- Whether an operation establishes the listener table when it is unset. -/
def establishes : Op → Bool
  | .pluginInit => true
  | .register _ _ => true
  | .remove _ _ => false
  | .fire _ _ => false

/-- State reached by a sequence of operations from the Uninitialized
state. -/
def run (ops : List Op) : Option Registry :=
  ops.foldl step none

/-! Theorems for the marshaling claims. -/

/-- Claim C3: for every native outcome `Failure(msg)`, `parse` returns an
`InvokeRejected` error wrapping `ErrorResponse` with `code = none` and
`message = some msg`, and the display string of that error contains `msg`. -/
theorem parse_failure_invoke_rejected {T : Type} (dec : String → Except String T)
    (msg : String) :
    parseFfi dec (.error (.Err msg)) =
      .error (.PluginInvoke (.InvokeRejected ⟨none, some msg⟩)) ∧
    ∃ pre post,
      Error.display (.PluginInvoke (.InvokeRejected ⟨none, some msg⟩)) =
        pre ++ msg ++ post := by
  refine ⟨rfl, "", "", ?_⟩
  simp [Error.display, PluginInvokeError.display, ErrorResponse.display]

/-- Claim C4: on `Success(payload)`, if the deserializer accepts the payload
then `parse` returns the decoded value; if it rejects the payload then
`parse` returns a `CannotDeserializeResponse` error carrying the underlying
parse error; and in every case the result is one of these two shapes (the
function is total, so it never panics). -/
theorem parse_success_decodes {T : Type} (dec : String → Except String T)
    (payload : String) :
    (∀ v, dec payload = .ok v → parseFfi dec (.ok payload) = .ok v) ∧
    (∀ e, dec payload = .error e →
      parseFfi dec (.ok payload) =
        .error (.PluginInvoke (.CannotDeserializeResponse e))) ∧
    ((∃ v, parseFfi dec (.ok payload) = .ok v) ∨
      (∃ e, parseFfi dec (.ok payload) =
        .error (.PluginInvoke (.CannotDeserializeResponse e)))) := by
  refine ⟨?_, ?_, ?_⟩
  · intro v hv
    simp [parseFfi, hv]
  · intro e he
    simp [parseFfi, he]
  · cases hd : dec payload with
    | ok v => exact Or.inl ⟨v, by simp [parseFfi, hd]⟩
    | error e => exact Or.inr ⟨e, by simp [parseFfi, hd]⟩

/-- Witness for claim C4's theorem at concrete inputs: the sample decimal
deserializer on a valid payload and on a malformed payload. -/
theorem parse_success_decodes_witness :
    parseFfi decNat (.ok "42") = .ok 42 ∧
    parseFfi decNat (.ok "ab") =
      .error (.PluginInvoke (.CannotDeserializeResponse "invalid number: ab")) := by
  constructor
  · exact (parse_success_decodes decNat "42").1 42 rfl
  · exact (parse_success_decodes decNat "ab").2.1 "invalid number: ab" rfl

/-- Claim C10: every bridge `Error` serializes as a single JSON string equal
to its display rendering, and for an `InvokeRejected` `ErrorResponse` that
rendering is the code/message structure flattened into one string:
code and message give `[code] - message`, message alone gives the message,
code alone gives `[code]`, and neither gives the empty string. -/
theorem error_serializes_as_display_string (code message : Option String) :
    (∀ e : Error, e.serializeJson = .str e.display) ∧
    Error.serializeJson (.PluginInvoke (.InvokeRejected ⟨code, message⟩)) =
      .str (match code, message with
        | some c, some m => "[" ++ c ++ "] - " ++ m
        | none, some m => m
        | some c, none => "[" ++ c ++ "]"
        | none, none => "") := by
  refine ⟨fun e => rfl, ?_⟩
  cases code <;> cases message <;>
    simp [Error.serializeJson, Error.display, PluginInvokeError.display,
      ErrorResponse.display, String.append_assoc]

/-! Helper lemmas about the registry operations. -/

/-- Looking up the event just registered yields its updated inner map. -/
lemma getEvent_register_self (r : Registry) (e : String) (c : Channel) :
    Registry.getEvent (Registry.register r e c) e =
      some (ChannelMap.insertEntry (Registry.subscribers r e) c.id c) := by
  induction r with
  | nil => simp [Registry.register, Registry.getEvent, Registry.subscribers]
  | cons p t ih =>
    cases hp : p.1 == e with
    | true =>
      simp [Registry.register, Registry.getEvent, Registry.subscribers, hp]
    | false =>
      simpa [Registry.register, Registry.getEvent, Registry.subscribers, hp] using ih

/-- Registering under one event name does not change lookups of another. -/
lemma getEvent_register_other (r : Registry) (e1 e2 : String) (c : Channel)
    (hne : e2 ≠ e1) :
    Registry.getEvent (Registry.register r e2 c) e1 = Registry.getEvent r e1 := by
  induction r with
  | nil => simp [Registry.register, Registry.getEvent, hne]
  | cons p t ih =>
    cases hp : p.1 == e2 with
    | true =>
      have hpe : p.1 = e2 := by simpa using hp
      have hq : (p.1 == e1) = false := by simp [hpe, hne]
      simp [Registry.register, Registry.getEvent, hp, hq]
    | false =>
      simp [Registry.register, Registry.getEvent, hp]
      cases hq : p.1 == e1 <;> simp [hq, ih]

/-- Removing an id that is not a key of the inner map leaves it unchanged. -/
lemma removeEntry_not_mem (m : ChannelMap) (i : Nat)
    (h : ¬ i ∈ m.map Prod.fst) : ChannelMap.removeEntry m i = m := by
  induction m with
  | nil => rfl
  | cons q t ih =>
    simp only [List.map_cons, List.mem_cons] at h
    push_neg at h
    have hq : (q.1 == i) = false := by simp [Ne.symm h.1]
    simp [ChannelMap.removeEntry, hq, ih h.2]

/-- Removing an id that is not registered for the event leaves the whole
table unchanged. -/
lemma removePair_not_mem (r : Registry) (e : String) (i : Nat)
    (h : ¬ i ∈ (Registry.subscribers r e).map Prod.fst) :
    Registry.removePair r e i = r := by
  induction r with
  | nil => rfl
  | cons p t ih =>
    cases hp : p.1 == e with
    | true =>
      have hsub : Registry.subscribers (p :: t) e = p.2 := by
        simp [Registry.subscribers, Registry.getEvent, hp]
      rw [hsub] at h
      simp [Registry.removePair, hp, removeEntry_not_mem p.2 i h]
    | false =>
      have hsub : Registry.subscribers (p :: t) e = Registry.subscribers t e := by
        simp [Registry.subscribers, Registry.getEvent, hp]
      rw [hsub] at h
      simp [Registry.removePair, hp, ih h]

/-- Dispatch on an established table: the delivery attempts are exactly the
subscribers of the event, each paired with the payload. -/
lemma trigger_some_eq (reg : Registry) (event payload : String) :
    trigger (some reg) event payload =
      .ok ((Registry.subscribers reg event).map (fun p => (p.2, payload))) := by
  cases h : Registry.getEvent reg event <;>
    simp [trigger, Registry.subscribers, h]

/-- Concrete registry used to instantiate the registry theorems: two
subscribers (one whose channel send fails) under one event, one subscriber
under another event. -/
def regSample : Registry :=
  [("transaction-updated", [(1, ⟨1, true⟩), (2, ⟨2, false⟩)]),
   ("other-event", [(3, ⟨3, true⟩)])]

/-! Theorems for the registry claims. -/

/-- Claim C2: dispatching (event, payload) attempts delivery of the payload
to exactly the channels currently registered for the event (membership in
the attempt list holds precisely for registered channels, independent of
registrations under other event names); with zero subscribers the dispatch
succeeds with an empty attempt list; and every registered channel receives
an attempt regardless of any channel's send outcome, since `trigger`
discards `send` results (`let _ = channel.send(..)`), so one failing
subscriber never suppresses delivery to the rest. -/
theorem trigger_dispatch_exact (reg : Registry) (event payload : String) :
    trigger (some reg) event payload =
      .ok ((Registry.subscribers reg event).map (fun p => (p.2, payload))) ∧
    (∀ ch pl,
      (ch, pl) ∈ (Registry.subscribers reg event).map (fun p => (p.2, payload)) ↔
        (pl = payload ∧ ch ∈ (Registry.subscribers reg event).map Prod.snd)) ∧
    (Registry.subscribers reg event = [] →
      trigger (some reg) event payload = .ok []) ∧
    (∀ e2 c, e2 ≠ event →
      trigger (some (Registry.register reg e2 c)) event payload =
        trigger (some reg) event payload) ∧
    (∀ p ∈ Registry.subscribers reg event,
      (p.2, payload) ∈ (Registry.subscribers reg event).map (fun q => (q.2, payload))) := by
  refine ⟨trigger_some_eq reg event payload, ?_, ?_, ?_, ?_⟩
  · intro ch pl
    simp only [List.mem_map]
    constructor
    · rintro ⟨a, ha, heq⟩
      obtain ⟨h1, h2⟩ := Prod.mk.injEq .. ▸ heq
      exact ⟨h2.symm, a, ha, h1⟩
    · rintro ⟨hpl, a, ha, h1⟩
      exact ⟨a, ha, by rw [h1, hpl]⟩
  · intro h
    rw [trigger_some_eq, h]
    rfl
  · intro e2 c hne
    simp only [trigger]
    rw [getEvent_register_other reg event e2 c hne]
  · intro p hp
    exact List.mem_map_of_mem _ hp

/-- Witness for claim C2's theorem at concrete inputs: registering under a
third event name leaves dispatch unchanged, a channel whose send fails is
still in the attempt list, and the empty registry dispatches to nobody. -/
theorem trigger_dispatch_exact_witness :
    trigger (some (Registry.register regSample "third" ⟨7, true⟩))
        "transaction-updated" "pay" =
      trigger (some regSample) "transaction-updated" "pay" ∧
    ((⟨2, false⟩ : Channel), "pay") ∈
      (Registry.subscribers regSample "transaction-updated").map
        (fun q => (q.2, "pay")) ∧
    trigger (some ([] : Registry)) "transaction-updated" "pay" = .ok [] := by
  refine ⟨?_, ?_, ?_⟩
  · exact (trigger_dispatch_exact regSample "transaction-updated" "pay").2.2.2.1
      "third" ⟨7, true⟩ (by decide)
  · exact (trigger_dispatch_exact regSample "transaction-updated" "pay").2.2.2.2
      (2, ⟨2, false⟩) (by decide)
  · exact (trigger_dispatch_exact [] "transaction-updated" "pay").2.2.1 rfl

/-- Claim C9: when the listener table has never been created, the native
callback entry point `trigger` reports the error message
`Listeners not initialized` and produces no delivery (its result is never a
success carrying attempts), rather than silently dropping the event. -/
theorem trigger_uninitialized_error (event payload : String) :
    trigger none event payload = .error (.Err "Listeners not initialized") ∧
    ∀ ds, trigger none event payload ≠ .ok ds :=
  ⟨rfl, fun _ h => by simp [trigger] at h⟩

/-- Witness for claim C9's theorem at a concrete event and payload. -/
theorem trigger_uninitialized_error_witness :
    trigger none "transaction-updated" "pay" =
      .error (.Err "Listeners not initialized") ∧
    trigger none "transaction-updated" "pay" ≠ .ok [] :=
  ⟨(trigger_uninitialized_error "transaction-updated" "pay").1,
   (trigger_uninitialized_error "transaction-updated" "pay").2 []⟩

/-- Claim C5: removing a pair (event, id) that is not currently registered
returns success, leaves the registry unchanged (the very same table, hence
the same size), and leaves dispatch behaviour unchanged for every event. -/
theorem remove_listener_nonexistent_noop (reg : Registry) (event : String)
    (i : Nat) (h : ¬ i ∈ (Registry.subscribers reg event).map Prod.fst) :
    removeListener (some reg) event i = .ok (some reg) ∧
    Registry.removePair reg event i = reg ∧
    Registry.size (Registry.removePair reg event i) = Registry.size reg ∧
    ∀ e p, trigger (some (Registry.removePair reg event i)) e p =
      trigger (some reg) e p := by
  have hr := removePair_not_mem reg event i h
  exact ⟨by simp [removeListener, hr], hr, by rw [hr], fun e p => by rw [hr]⟩

/-- Witness for claim C5's theorem: removing the unregistered id 99 from a
concrete registry. -/
theorem remove_listener_nonexistent_noop_witness :
    removeListener (some regSample) "transaction-updated" 99 =
      .ok (some regSample) ∧
    Registry.removePair regSample "transaction-updated" 99 = regSample :=
  ⟨(remove_listener_nonexistent_noop regSample "transaction-updated" 99
      (by decide)).1,
   (remove_listener_nonexistent_noop regSample "transaction-updated" 99
      (by decide)).2.1⟩

/-- One step changes the cell from unset to set exactly when the operation
establishes the table. -/
lemma isSome_step (st : Option Registry) (op : Op) :
    (step st op).isSome = (st.isSome || establishes op) := by
  cases op <;> cases st <;> simp [step, establishes]

/-- The cell is set after a sequence of steps iff it was set before or some
operation in the sequence establishes it. -/
lemma isSome_foldl (ops : List Op) : ∀ st : Option Registry,
    (ops.foldl step st).isSome = (st.isSome || ops.any establishes) := by
  induction ops with
  | nil => intro st; simp
  | cons op rest ih =>
    intro st
    simp [List.foldl_cons, ih, isSome_step, List.any_cons, Bool.or_assoc]

/-- Claim C8: starting Uninitialized, the bridge is Active after a sequence
of operations exactly when the sequence contains a plugin `init` or a
listener registration (the first such operation performs the one
transition); a plugin `init` in the Active state is a no-op preserving the
existing registry; and no operation ever takes the Active state back to
Uninitialized. -/
theorem lifecycle_transition_once (ops : List Op) :
    ((run ops).isSome = true ↔ ∃ op ∈ ops, establishes op = true) ∧
    (∀ reg : Registry, step (some reg) Op.pluginInit = some reg) ∧
    (∀ (reg : Registry) (op : Op), (step (some reg) op).isSome = true) := by
  refine ⟨?_, fun reg => rfl, fun reg op => ?_⟩
  · rw [run, isSome_foldl]
    simp [List.any_eq_true]
  · rw [isSome_step]
    simp

/-! Helper lemmas about insert-or-replace, for the registration claim. -/

/-- The inserted id is a key of the updated inner map. -/
lemma mem_keys_insertEntry (m : ChannelMap) (i : Nat) (c : Channel) :
    i ∈ (ChannelMap.insertEntry m i c).map Prod.fst := by
  induction m with
  | nil => simp [ChannelMap.insertEntry]
  | cons q t ih =>
    cases hq : q.1 == i with
    | true =>
      have hqi : q.1 = i := by simpa using hq
      simp [ChannelMap.insertEntry, hq, hqi]
    | false => simp [ChannelMap.insertEntry, hq, ih]

/-- Insert-or-replace preserves the number of entries at the inserted key
when it was present, and adds one entry otherwise. -/
lemma countP_insertEntry (m : ChannelMap) (i : Nat) (c : Channel) :
    (ChannelMap.insertEntry m i c).countP (fun p => p.1 == i) =
      if i ∈ m.map Prod.fst then m.countP (fun p => p.1 == i)
      else m.countP (fun p => p.1 == i) + 1 := by
  induction m with
  | nil => simp [ChannelMap.insertEntry]
  | cons q t ih =>
    cases hq : q.1 == i with
    | true =>
      have hqi : q.1 = i := by simpa using hq
      simp [ChannelMap.insertEntry, hq, hqi, List.countP_cons]
    | false =>
      have hqi : ¬ q.1 = i := by simpa using hq
      by_cases hm : i ∈ t.map Prod.fst <;>
        simp [ChannelMap.insertEntry, hq, List.countP_cons, ih, hm, Ne.symm hqi]

/-- Looking up the inserted id yields the inserted channel. -/
lemma lookupId_insertEntry (m : ChannelMap) (i : Nat) (c : Channel) :
    ChannelMap.lookupId (ChannelMap.insertEntry m i c) i = some c := by
  induction m with
  | nil => simp [ChannelMap.insertEntry, ChannelMap.lookupId]
  | cons q t ih =>
    cases hq : q.1 == i <;>
      simp [ChannelMap.insertEntry, ChannelMap.lookupId, hq, ih]

/-- Insert-or-replace preserves the inner map's length when the key was
present, and grows it by one otherwise. -/
lemma length_insertEntry (m : ChannelMap) (i : Nat) (c : Channel) :
    (ChannelMap.insertEntry m i c).length =
      if i ∈ m.map Prod.fst then m.length else m.length + 1 := by
  induction m with
  | nil => simp [ChannelMap.insertEntry]
  | cons q t ih =>
    cases hq : q.1 == i with
    | true =>
      have hqi : q.1 = i := by simpa using hq
      simp [ChannelMap.insertEntry, hq, hqi]
    | false =>
      have hqi : ¬ q.1 = i := by simpa using hq
      by_cases hm : i ∈ t.map Prod.fst <;>
        simp [ChannelMap.insertEntry, hq, ih, hm, Ne.symm hqi]

/-- Registration preserves the total registry size when the channel id was
already registered for the event, and grows it by one otherwise. -/
lemma size_register (r : Registry) (e : String) (c : Channel) :
    Registry.size (Registry.register r e c) =
      if c.id ∈ (Registry.subscribers r e).map Prod.fst then Registry.size r
      else Registry.size r + 1 := by
  induction r with
  | nil =>
    simp [Registry.register, Registry.size, Registry.subscribers,
      Registry.getEvent, ChannelMap.insertEntry]
  | cons p t ih =>
    cases hp : p.1 == e with
    | true =>
      have hsub : Registry.subscribers (p :: t) e = p.2 := by
        simp [Registry.subscribers, Registry.getEvent, hp]
      by_cases hm : c.id ∈ p.2.map Prod.fst <;>
        simp [Registry.register, hp, Registry.size, length_insertEntry,
          hsub, hm, Nat.add_assoc, Nat.add_comm, Nat.add_left_comm]
    | false =>
      have hsub : Registry.subscribers (p :: t) e = Registry.subscribers t e := by
        simp [Registry.subscribers, Registry.getEvent, hp]
      rw [hsub]
      have hstep : Registry.register (p :: t) e c = p :: Registry.register t e c := by
        simp [Registry.register, hp]
      have hsz : Registry.size (p :: Registry.register t e c) =
          p.2.length + Registry.size (Registry.register t e c) := by
        simp [Registry.size]
      have hsz2 : Registry.size (p :: t) = p.2.length + Registry.size t := by
        simp [Registry.size]
      rw [hstep, hsz, ih, hsz2]
      by_cases hm : c.id ∈ (Registry.subscribers t e).map Prod.fst <;>
        simp [hm, Nat.add_assoc]

/-- Counting entries at a key equals counting the key among the key list. -/
lemma countP_keys (m : ChannelMap) (i : Nat) :
    m.countP (fun p => p.1 == i) = (m.map Prod.fst).count i := by
  rw [List.count, List.countP_map]
  rfl

/-- In a well-formed inner map, a present key has exactly one entry. -/
lemma countP_eq_one_of_wf (m : ChannelMap) (i : Nat) (hwf : ChannelMap.WF m)
    (hm : i ∈ m.map Prod.fst) : m.countP (fun p => p.1 == i) = 1 := by
  rw [countP_keys]
  exact List.count_eq_one_of_mem hwf hm

/-- An absent key has no entry. -/
lemma countP_eq_zero_of_not_mem (m : ChannelMap) (i : Nat)
    (hm : ¬ i ∈ m.map Prod.fst) : m.countP (fun p => p.1 == i) = 0 := by
  rw [countP_keys]
  exact List.count_eq_zero_of_not_mem hm

/-- A successful event lookup returns an inner map stored in the table. -/
lemma getEvent_mem (r : Registry) (e : String) (m : ChannelMap)
    (h : Registry.getEvent r e = some m) : ∃ p ∈ r, p.2 = m := by
  induction r with
  | nil => simp [Registry.getEvent] at h
  | cons p t ih =>
    cases hp : p.1 == e with
    | true =>
      rw [Registry.getEvent, hp] at h
      simp only [if_true] at h
      exact ⟨p, List.mem_cons_self p t, by injection h⟩
    | false =>
      rw [Registry.getEvent, hp] at h
      simp only [Bool.false_eq_true, if_false] at h
      obtain ⟨q, hq, hq2⟩ := ih h
      exact ⟨q, List.mem_cons_of_mem p hq, hq2⟩

/-- In a well-formed table, every event's subscriber map is well-formed. -/
lemma subscribers_wf (r : Registry) (e : String) (hwf : Registry.WF r) :
    ChannelMap.WF (Registry.subscribers r e) := by
  unfold Registry.subscribers
  cases h : Registry.getEvent r e with
  | none => simp [ChannelMap.WF]
  | some m =>
    obtain ⟨p, hp, hpm⟩ := getEvent_mem r e m h
    simpa [hpm] using hwf.2 p hp

/-- Claim C6: registering the same channel id twice for the same event
leaves exactly one entry for that id, holding the handle from the second
registration; the second registration preserves registry size (idempotence
in size); and `register_listener` performs exactly this insert-or-replace
on the table. -/
theorem register_listener_replaces (reg : Registry) (event : String)
    (c1 c2 : Channel) (hid : c1.id = c2.id) (hwf : Registry.WF reg) :
    (Registry.subscribers
        (Registry.register (Registry.register reg event c1) event c2)
        event).countP (fun p => p.1 == c2.id) = 1 ∧
    ChannelMap.lookupId
      (Registry.subscribers
        (Registry.register (Registry.register reg event c1) event c2) event)
      c2.id = some c2 ∧
    Registry.size (Registry.register (Registry.register reg event c1) event c2) =
      Registry.size (Registry.register reg event c1) ∧
    registerListener (some (Registry.register reg event c1)) event c2 =
      .ok (some (Registry.register (Registry.register reg event c1) event c2)) := by
  have hsub1 : Registry.subscribers (Registry.register reg event c1) event =
      ChannelMap.insertEntry (Registry.subscribers reg event) c1.id c1 := by
    simp [Registry.subscribers, getEvent_register_self]
  have hsub2 : Registry.subscribers
      (Registry.register (Registry.register reg event c1) event c2) event =
      ChannelMap.insertEntry
        (ChannelMap.insertEntry (Registry.subscribers reg event) c1.id c1)
        c2.id c2 := by
    simp [Registry.subscribers, getEvent_register_self, hsub1]
  refine ⟨?_, ?_, ?_, rfl⟩
  · rw [hsub2, countP_insertEntry]
    rw [← hid]
    simp only [mem_keys_insertEntry, if_true]
    rw [countP_insertEntry]
    by_cases hm : c1.id ∈ (Registry.subscribers reg event).map Prod.fst
    · rw [if_pos hm]
      exact countP_eq_one_of_wf _ _ (subscribers_wf reg event hwf) hm
    · rw [if_neg hm, countP_eq_zero_of_not_mem _ _ hm]
  · rw [hsub2]
    exact lookupId_insertEntry _ _ _
  · rw [size_register, hsub1, ← hid, if_pos (mem_keys_insertEntry _ _ _)]

/-- Witness for claim C6's theorem: registering id 5 twice for the same
event on a concrete registry leaves one entry holding the second handle. -/
theorem register_listener_replaces_witness :
    (Registry.subscribers
        (Registry.register
          (Registry.register regSample "transaction-updated" ⟨5, true⟩)
          "transaction-updated" ⟨5, false⟩)
        "transaction-updated").countP (fun p => p.1 == 5) = 1 ∧
    ChannelMap.lookupId
      (Registry.subscribers
        (Registry.register
          (Registry.register regSample "transaction-updated" ⟨5, true⟩)
          "transaction-updated" ⟨5, false⟩)
        "transaction-updated") 5 = some ⟨5, false⟩ :=
  ⟨(register_listener_replaces regSample "transaction-updated" ⟨5, true⟩
      ⟨5, false⟩ rfl (by decide)).1,
   (register_listener_replaces regSample "transaction-updated" ⟨5, true⟩
      ⟨5, false⟩ rfl (by decide)).2.1⟩

/-! Bridge façade operations on macOS, from src/macos.rs lines 169-234.
The Signature Gate result (the return value of
`codesign::is_signature_valid`, an OS query) and the native outcome are
passed as parameters; each operation returns the marshaled result paired
with whether the native module was invoked. -/

/-- Outcome of the Signature Gate `codesign::is_signature_valid`
(src/macos.rs lines 25-68): `Ok(())` when the running binary's signature
validates, otherwise an error. -/
abbrev GateResult := Except Error Unit

/-- Replica of `Iap::initialize` (src/macos.rs lines 170-174). The call
`codesign::is_signature_valid()?` on line 171 is commented out in the
source, so the gate result is never consulted and the native
`self.plugin.initialize()` is always invoked. -/
def initializeOp {T : Type} (gate : GateResult) (dec : String → Except String T)
    (native : NativeOutcome) : Except Error T × Bool :=
  let _ := gate
  (parseFfi dec native, true)

/-- Replica of `Iap::get_products` (src/macos.rs lines 176-187): gate
check, then native call, then marshaling. -/
def getProductsOp {T : Type} (gate : GateResult) (dec : String → Except String T)
    (native : NativeOutcome) : Except Error T × Bool :=
  match gate with
  | .error e => (.error e, false)
  | .ok _ => (parseFfi dec native, true)

/-- Replica of `Iap::purchase` (src/macos.rs lines 189-200): gate check,
then native call, then marshaling. -/
def purchaseOp {T : Type} (gate : GateResult) (dec : String → Except String T)
    (native : NativeOutcome) : Except Error T × Bool :=
  match gate with
  | .error e => (.error e, false)
  | .ok _ => (parseFfi dec native, true)

/-- Replica of `Iap::restore_purchases` (src/macos.rs lines 202-209): gate
check, then native call, then marshaling. -/
def restorePurchasesOp {T : Type} (gate : GateResult)
    (dec : String → Except String T) (native : NativeOutcome) :
    Except Error T × Bool :=
  match gate with
  | .error e => (.error e, false)
  | .ok _ => (parseFfi dec native, true)

/-- Replica of `Iap::acknowledge_purchase` (src/macos.rs lines 211-221):
gate check, then native call, then marshaling. -/
def acknowledgePurchaseOp {T : Type} (gate : GateResult)
    (dec : String → Except String T) (native : NativeOutcome) :
    Except Error T × Bool :=
  match gate with
  | .error e => (.error e, false)
  | .ok _ => (parseFfi dec native, true)

/-- Replica of `Iap::get_product_status` (src/macos.rs lines 223-234):
gate check, then native call, then marshaling. -/
def getProductStatusOp {T : Type} (gate : GateResult)
    (dec : String → Except String T) (native : NativeOutcome) :
    Except Error T × Bool :=
  match gate with
  | .error e => (.error e, false)
  | .ok _ => (parseFfi dec native, true)

/-- Sample gate failure: the error `is_signature_valid` builds when
`SecCode::check_validity` reports a nonzero status. -/
def gateErrSample : Error :=
  .PluginInvoke (.InvokeRejected
    ⟨some "9999", some "Code signature validation failed: OSStatus 9999"⟩)

/-- Claim C1 counterexample: with the Signature Gate reporting invalid,
`Iap::initialize` still invokes the native module and returns the
marshaled native result instead of the gate's error, because the gate call
on src/macos.rs line 171 is commented out. -/
theorem initialize_gate_skipped_cex :
    initializeOp (T := Nat) (.error gateErrSample) decNat (.ok "7") =
      (.ok 7, true) ∧
    initializeOp (T := Nat) (.error gateErrSample) decNat (.ok "7") ≠
      ((.error gateErrSample : Except Error Nat), false) := by
  have h1 : initializeOp (T := Nat) (.error gateErrSample) decNat (.ok "7") =
      (.ok 7, true) := rfl
  exact ⟨h1, fun h => Bool.noConfusion (congrArg Prod.snd (h1.symm.trans h))⟩

/-- Claim C1 as amended: for get_products, purchase, restore_purchases,
acknowledge_purchase and get_product_status, the Signature Gate runs
before the native module is invoked, and an invalid gate makes the
operation return the gate's error without invoking the native module
(invocation flag false); with a valid gate each invokes the native module
and marshals its outcome. `Iap::initialize` is the exception: it never
consults the gate (its result is independent of the gate argument). -/
theorem facade_gate_short_circuits {T : Type} (e : Error)
    (dec : String → Except String T) (native : NativeOutcome) :
    getProductsOp (.error e) dec native = (.error e, false) ∧
    purchaseOp (.error e) dec native = (.error e, false) ∧
    restorePurchasesOp (.error e) dec native = (.error e, false) ∧
    acknowledgePurchaseOp (.error e) dec native = (.error e, false) ∧
    getProductStatusOp (.error e) dec native = (.error e, false) ∧
    getProductsOp (.ok ()) dec native = (parseFfi dec native, true) ∧
    purchaseOp (.ok ()) dec native = (parseFfi dec native, true) ∧
    restorePurchasesOp (.ok ()) dec native = (parseFfi dec native, true) ∧
    acknowledgePurchaseOp (.ok ()) dec native = (parseFfi dec native, true) ∧
    getProductStatusOp (.ok ()) dec native = (parseFfi dec native, true) ∧
    (∀ g1 g2 : GateResult,
      initializeOp g1 dec native = initializeOp g2 dec native) :=
  ⟨rfl, rfl, rfl, rfl, rfl, rfl, rfl, rfl, rfl, rfl, fun _ _ => rfl⟩

/-! Desktop implementation, from src/desktop.rs: every method immediately
returns the platform-unsupported error. The domain response types are
opaque to the bridge and are taken as a type parameter. -/

/-- The error every desktop method returns (src/desktop.rs): realized in
the code as the `Io` variant carrying this fixed message. -/
def platformUnsupportedError : Error :=
  .Io "IAP is not supported on this platform"

namespace Desktop

/-- Replica of desktop `Iap::initialize` (src/desktop.rs lines 17-21). -/
def initializeOp (T : Type) : Except Error T :=
  .error platformUnsupportedError

/-- Replica of desktop `Iap::get_products` (src/desktop.rs lines 23-31). -/
def getProducts (T : Type) (_productIds : List String) (_productType : String) :
    Except Error T :=
  .error platformUnsupportedError

/-- Replica of desktop `Iap::purchase` (src/desktop.rs lines 33-42);
the options argument models `Option<PurchaseOptions>` by the optional
offer token it carries. -/
def purchase (T : Type) (_productId _productType : String)
    (_options : Option (Option String)) : Except Error T :=
  .error platformUnsupportedError

/-- Replica of desktop `Iap::restore_purchases` (src/desktop.rs lines
44-51). -/
def restorePurchases (T : Type) (_productType : String) : Except Error T :=
  .error platformUnsupportedError

/-- Replica of desktop `Iap::get_purchase_history` (src/desktop.rs lines
53-57). -/
def getPurchaseHistory (T : Type) : Except Error T :=
  .error platformUnsupportedError

/-- Replica of desktop `Iap::acknowledge_purchase` (src/desktop.rs lines
59-66). -/
def acknowledgePurchase (T : Type) (_purchaseToken : String) : Except Error T :=
  .error platformUnsupportedError

/-- Replica of desktop `Iap::get_product_status` (src/desktop.rs lines
68-76). -/
def getProductStatus (T : Type) (_productId _productType : String) :
    Except Error T :=
  .error platformUnsupportedError

end Desktop

/-- Claim C7: on a platform lacking a native module, every façade
operation immediately returns the platform-unsupported error, whatever its
inputs; the operations are pure, so nothing else happens. -/
theorem desktop_platform_unsupported (T : Type) (productIds : List String)
    (productId productType purchaseToken : String)
    (options : Option (Option String)) :
    Desktop.initializeOp T = .error platformUnsupportedError ∧
    Desktop.getProducts T productIds productType =
      .error platformUnsupportedError ∧
    Desktop.purchase T productId productType options =
      .error platformUnsupportedError ∧
    Desktop.restorePurchases T productType = .error platformUnsupportedError ∧
    Desktop.getPurchaseHistory T = .error platformUnsupportedError ∧
    Desktop.acknowledgePurchase T purchaseToken =
      .error platformUnsupportedError ∧
    Desktop.getProductStatus T productId productType =
      .error platformUnsupportedError :=
  ⟨rfl, rfl, rfl, rfl, rfl, rfl, rfl⟩

end Iap
